import Mathlib

/-!
Shallow embedding of the gfx-gtk bridge library (src/lib.rs, src/dl.rs).

The embedding translates the Rust source:
* `gfx::texture::AaMode` and `Viewport` (lib.rs) with `aa_size` / `with_aa`;
* the `RenderContext` state relevant to `new_with_loader` / `resize`
  (lib.rs), with the GPU factory abstracted as a record of fallible
  allocation functions and resource handles as `Nat` tags, and an event
  trace recording each allocation attempt and resize notification;
* the per-frame `with_gfx` protocol (lib.rs) over an explicit GL binding
  state, with the raw GL calls recorded as an event trace;
* the proc-loader chain of dl.rs (`DlProcLoader`, `Failover`, `fn_from`).

Rust `i32` values are modelled as `Int` (the only arithmetic performed on
them is multiplication by the constants 0 and 1, which cannot overflow),
and the Rust `as u16` cast is modelled as reduction modulo 2^16, which is
exactly the two's-complement bit truncation `as` performs.
-/

/-- `gfx::texture::AaMode` (the gfx crate): `Single`, `Multi(NumSamples)`,
`Coverage(NumSamples, NumFragments)`. -/
inductive AaMode where
  | Single : AaMode
  | Multi : Nat → AaMode
  | Coverage : Nat → Nat → AaMode
deriving DecidableEq, Repr

/-- `formats::MSAA_NONE` (lib.rs). -/
def MSAA_NONE : AaMode := AaMode.Single

/-- `formats::MSAA_4X` (lib.rs). -/
def MSAA_4X : AaMode := AaMode.Multi 4

/-- `Viewport` (lib.rs): client area of the GlArea being rendered into.
All four dimension fields are `i32` in the source, modelled as `Int`. -/
structure Viewport where
  width : Int
  height : Int
  target_width : Int
  target_height : Int
  aa : AaMode
deriving DecidableEq, Repr

/-- `Viewport::aa_size` (lib.rs): computes the offscreen target size from
the widget client size and the AA mode.  The source matches
`Single => (1, 1)`, `Multi(_) => (1, 1)` and a catch-all `_ => (0, 0)`
(which is reached exactly by `Coverage(_, _)`), then returns
`(target_width * mx, target_height * my)`. -/
def Viewport.aa_size (aa : AaMode) (target_width target_height : Int) : Int × Int :=
  let m : Int × Int :=
    match aa with
    | AaMode.Single => (1, 1)
    | AaMode.Multi _ => (1, 1)
    | _ => (0, 0)
  (target_width * m.1, target_height * m.2)

/-- `Viewport::with_aa` (lib.rs): builds a `Viewport` from the widget size,
deriving `width`/`height` through `aa_size`. -/
def Viewport.with_aa (aa : AaMode) (target_width target_height : Int) : Viewport :=
  let wh := Viewport.aa_size aa target_width target_height
  { width := wh.1
    height := wh.2
    target_width := target_width
    target_height := target_height
    aa := aa }

/-- The Rust `as u16` cast applied to an `i32` (lib.rs passes
`viewport.width as u16` etc. to the target allocators): two's-complement
truncation to the low 16 bits, i.e. reduction modulo 65536. -/
def i32_as_u16 (v : Int) : Nat := (v % 65536).toNat

example : i32_as_u16 800 = 800 := by decide
example : i32_as_u16 (-1) = 65535 := by decide
example : i32_as_u16 70000 = 4464 := by decide
example : (Viewport.with_aa (AaMode.Coverage 4 4) 800 600).width = 0 := by decide
example : (Viewport.with_aa MSAA_4X 800 600).width = 800 := by decide

/-- `Error` (lib.rs): the library's single error variant wrapping a
message string. -/
inductive Error where
  | GenericError : String → Error
deriving DecidableEq, Repr

/-- `GlRenderCallbackStatus` (lib.rs): hint returned by the render and
postprocess callbacks. -/
inductive GlRenderCallbackStatus where
  | Continue : GlRenderCallbackStatus
  | Skip : GlRenderCallbackStatus
deriving DecidableEq, Repr

/-- `Result::is_ok` on the library's `Result<T>` type. -/
def result_is_ok {α : Type} : Except Error α → Bool
  | Except.ok _ => true
  | Except.error _ => false

/-- GL constant `GL_COLOR_ATTACHMENT0`. -/
def GL_COLOR_ATTACHMENT0 : Nat := 0x8CE0

/-- GL constant `GL_RENDERBUFFER`. -/
def GL_RENDERBUFFER : Nat := 0x8D41

/-- GL constant `GL_COLOR_BUFFER_BIT`. -/
def GL_COLOR_BUFFER_BIT : Nat := 0x4000

/-- GL constant `GL_NEAREST`. -/
def GL_NEAREST : Nat := 0x2600

/-- The two framebuffer binding slots used by `glBindFramebuffer` in
`with_gfx`: `GL_READ_FRAMEBUFFER` and `GL_DRAW_FRAMEBUFFER`. -/
inductive FramebufferSlot where
  | readFb : FramebufferSlot
  | drawFb : FramebufferSlot
deriving DecidableEq, Repr

/-- The ambient GL binding state manipulated by `with_gfx` (lib.rs):
the draw/read framebuffer bindings, the renderbuffer binding, and each
framebuffer's color attachment (written by
`glNamedFramebufferRenderbuffer`). -/
structure GlState where
  draw_framebuffer : Nat
  read_framebuffer : Nat
  renderbuffer : Nat
  color_attachment : Nat → Nat

/-- Observable events of one `with_gfx` frame, in program order: the two
`glGetIntegerv` binding queries, the callback invocations, the encoder
flush, the raw GL blit-back calls, and the device cleanup. -/
inductive GlEvent where
  | getIntegerDrawFb : Nat → GlEvent
  | getIntegerRenderbuffer : Nat → GlEvent
  | renderInvoked : GlEvent
  | postprocessInvoked : GlEvent
  | encoderFlush : GlEvent
  | bindFramebuffer : FramebufferSlot → Nat → GlEvent
  | namedFramebufferRenderbuffer : Nat → Nat → Nat → Nat → GlEvent
  | blitFramebuffer : Int → Int → Int → Int → Int → Int → Int → Int → Nat → Nat → GlEvent
  | glFlush : GlEvent
  | cleanupInvoked : GlEvent
deriving DecidableEq, Repr

/-- The host-supplied callback object passed to `with_gfx` (a value
implementing both `GlRenderCallback` and `GlPostprocessCallback`,
lib.rs).  Each method is modelled by its result together with its effect
on the ambient GL binding state (the gfx draw commands it issues mutate
the GL bindings). -/
structure RenderCallback where
  render : GlState → Except Error GlRenderCallbackStatus × GlState
  postprocess : GlState → Except Error GlRenderCallbackStatus × GlState

/-- The `match render_result` expression of `with_gfx` (lib.rs): on
`Ok(Continue)` invoke the postprocess callback; on any other `Ok` (i.e.
`Ok(Skip)`) flush the encoder and yield `Ok(Skip)`; on `Err(e)` yield
`Err(e)`.  Returns the postprocess result, the events of this stage and
the GL state afterwards. -/
def postprocess_stage (cb : RenderCallback)
    (render_result : Except Error GlRenderCallbackStatus) (s : GlState) :
    Except Error GlRenderCallbackStatus × List GlEvent × GlState :=
  match render_result with
  | Except.ok GlRenderCallbackStatus.Continue =>
      let pr := cb.postprocess s
      (pr.1, [GlEvent.postprocessInvoked], pr.2)
  | Except.ok _ =>
      (Except.ok GlRenderCallbackStatus.Skip, [GlEvent.encoderFlush], s)
  | Except.error e => (Except.error e, [], s)

/-- The `unsafe` blit-back block of `with_gfx` (lib.rs): reads the
framebuffer currently bound for drawing (`gfx_framebuffer_name`), binds
it as the read framebuffer, rebinds the saved toolkit framebuffer as the
draw framebuffer, re-attaches the saved renderbuffer as that
framebuffer's color attachment, blits the full target rectangle onto
itself with nearest filtering and the color buffer bit, and flushes. -/
def blit_back (vp : Viewport) (gtk_framebuffer_name gtk_renderbuffer_binding : Nat)
    (s : GlState) : List GlEvent × GlState :=
  let gfx_framebuffer_name := s.draw_framebuffer
  ([GlEvent.bindFramebuffer FramebufferSlot.readFb gfx_framebuffer_name,
    GlEvent.bindFramebuffer FramebufferSlot.drawFb gtk_framebuffer_name,
    GlEvent.namedFramebufferRenderbuffer gtk_framebuffer_name GL_COLOR_ATTACHMENT0
      GL_RENDERBUFFER gtk_renderbuffer_binding,
    GlEvent.blitFramebuffer 0 0 vp.target_width vp.target_height
      0 0 vp.target_width vp.target_height GL_COLOR_BUFFER_BIT GL_NEAREST,
    GlEvent.glFlush],
   { s with
      read_framebuffer := gfx_framebuffer_name
      draw_framebuffer := gtk_framebuffer_name
      color_attachment := fun fb =>
        if fb = gtk_framebuffer_name then gtk_renderbuffer_binding
        else s.color_attachment fb })

/-- `RenderContext::with_gfx` (lib.rs), as a function from the viewport,
the callback object and the incoming GL state to the frame's event trace
and the outgoing GL state.  It captures the toolkit's draw framebuffer
and renderbuffer bindings, invokes the render callback, runs the
postprocess stage, performs the blit-back exactly when the stage result
`is_ok`, and unconditionally runs `cleanup` last. -/
def with_gfx (vp : Viewport) (cb : RenderCallback) (s0 : GlState) :
    List GlEvent × GlState :=
  let gtk_framebuffer_name := s0.draw_framebuffer
  let gtk_renderbuffer_binding := s0.renderbuffer
  let capture_events :=
    [GlEvent.getIntegerDrawFb gtk_framebuffer_name,
     GlEvent.getIntegerRenderbuffer gtk_renderbuffer_binding,
     GlEvent.renderInvoked]
  let rr := cb.render s0
  let ps := postprocess_stage cb rr.1 rr.2
  if result_is_ok ps.1 then
    let bb := blit_back vp gtk_framebuffer_name gtk_renderbuffer_binding ps.2.2
    (capture_events ++ ps.2.1 ++ bb.1 ++ [GlEvent.cleanupInvoked], bb.2)
  else
    (capture_events ++ ps.2.1 ++ [GlEvent.cleanupInvoked], ps.2.2)

/-- The shader source constants of shaders.rs and the optional custom
postprocess shader buffer, as opaque tags (the GLSL text is passed
through untouched by lib.rs). -/
inductive ShaderSrc where
  | POST_VERTEX_SHADER : ShaderSrc
  | POST_PIXEL_SHADER : ShaderSrc
  | POST_PIXEL_SHADER_MSAA_4X : ShaderSrc
  | custom : Nat → ShaderSrc
deriving DecidableEq, Repr

/-- The gfx factory as consumed by `new_with_loader` and `resize`
(lib.rs): `create_gtk_compatible_targets` yields the color shader view,
the color render target and the depth target;
`create_gtk_compatible_render_target` yields a (texture, shader view,
render target) triple; `create_pipeline_simple` yields a pipeline state
object.  Resource handles are `Nat` tags; each call can fail with the
library's `Error`. -/
structure Factory where
  create_gtk_compatible_targets : AaMode → Nat → Nat → Except Error (Nat × Nat × Nat)
  create_gtk_compatible_render_target : AaMode → Nat → Nat → Except Error (Nat × Nat × Nat)
  create_pipeline_simple : ShaderSrc → ShaderSrc → Except Error Nat

/-- The fields of `RenderContext` (lib.rs) that `resize` reads and
writes; resource handles are the `Nat` tags handed out by the factory. -/
structure RenderContext where
  viewport : Viewport
  render_target_source : Nat
  render_target : Nat
  postprocess_target : Nat
  depth_buffer : Nat
  postprocess_pso : Nat
deriving DecidableEq, Repr

/-- Observable events of `new_with_loader` and `resize`: each target
allocation attempt (with the AA mode and the `u16` dimensions passed to
the factory) and each resize notification forwarded to the render
callback. -/
inductive ResizeEvent where
  | allocTargets : AaMode → Nat → Nat → ResizeEvent
  | allocPostTarget : AaMode → Nat → Nat → ResizeEvent
  | notifyResize : Viewport → ResizeEvent
deriving DecidableEq, Repr

/-- `RenderContext::resize` (lib.rs).  The render callback's `resize`
hook is modelled by its result as a function of the viewport it is
handed.  Returns the Rust result, the context afterwards (the receiver
`self` after the call) and the event trace.  Mirrors the source: compute
the new viewport with the stored AA mode; if `width` or `height`
changed, allocate the main targets then the postprocess target (each
`?`-propagating its error before any field is assigned), assign all five
fields, then forward the notification iff a callback was supplied
(`?`-propagating its error); otherwise do nothing and return `Ok(())`. -/
def RenderContext.resize (ctx : RenderContext) (factory : Factory)
    (widget_width widget_height : Int)
    (render_callback : Option (Viewport → Except Error GlRenderCallbackStatus)) :
    Except Error Unit × RenderContext × List ResizeEvent :=
  let new_viewport := Viewport.with_aa ctx.viewport.aa widget_width widget_height
  if new_viewport.width ≠ ctx.viewport.width ∨ new_viewport.height ≠ ctx.viewport.height then
    let ev1 := ResizeEvent.allocTargets ctx.viewport.aa
      (i32_as_u16 new_viewport.width) (i32_as_u16 new_viewport.height)
    match factory.create_gtk_compatible_targets ctx.viewport.aa
        (i32_as_u16 new_viewport.width) (i32_as_u16 new_viewport.height) with
    | Except.error e => (Except.error e, ctx, [ev1])
    | Except.ok (frame_buffer_source, frame_buffer, depth_buffer) =>
      let ev2 := ResizeEvent.allocPostTarget MSAA_NONE
        (i32_as_u16 new_viewport.target_width) (i32_as_u16 new_viewport.target_height)
      match factory.create_gtk_compatible_render_target MSAA_NONE
          (i32_as_u16 new_viewport.target_width) (i32_as_u16 new_viewport.target_height) with
      | Except.error e => (Except.error e, ctx, [ev1, ev2])
      | Except.ok (_, _, postprocess_target) =>
        let ctx2 : RenderContext :=
          { ctx with
              viewport := new_viewport
              render_target_source := frame_buffer_source
              render_target := frame_buffer
              postprocess_target := postprocess_target
              depth_buffer := depth_buffer }
        match render_callback with
        | some cb =>
          match cb new_viewport with
          | Except.ok _ => (Except.ok (), ctx2, [ev1, ev2, ResizeEvent.notifyResize new_viewport])
          | Except.error e => (Except.error e, ctx2, [ev1, ev2, ResizeEvent.notifyResize new_viewport])
        | none => (Except.ok (), ctx2, [ev1, ev2])
  else
    (Except.ok (), ctx, [])

/-- `GlRenderContext::new_with_loader` (lib.rs), restricted to the
allocation/pipeline steps observable in this model (vertex-buffer and
sampler creation are infallible in the source and touch no state this
development reasons about).  Computes the viewport via `with_aa`,
allocates the main targets at `(viewport.width as u16, viewport.height
as u16)`, allocates the postprocess target at the `u16`-cast target
dimensions with `MSAA_NONE`, chooses the pixel shader (the supplied one,
else the MSAA-4x resolve shader iff `aa` is `Multi(4)`, else the plain
one) and builds the postprocess pipeline. -/
def new_with_loader (factory : Factory) (aa : AaMode)
    (widget_width widget_height : Int) (postprocess_shader : Option ShaderSrc) :
    Except Error RenderContext × List ResizeEvent :=
  let viewport := Viewport.with_aa aa widget_width widget_height
  let ev1 := ResizeEvent.allocTargets aa
    (i32_as_u16 viewport.width) (i32_as_u16 viewport.height)
  match factory.create_gtk_compatible_targets aa
      (i32_as_u16 viewport.width) (i32_as_u16 viewport.height) with
  | Except.error e => (Except.error e, [ev1])
  | Except.ok (render_target_source, render_target, depth_buffer) =>
    let ev2 := ResizeEvent.allocPostTarget MSAA_NONE
      (i32_as_u16 viewport.target_width) (i32_as_u16 viewport.target_height)
    match factory.create_gtk_compatible_render_target MSAA_NONE
        (i32_as_u16 viewport.target_width) (i32_as_u16 viewport.target_height) with
    | Except.error e => (Except.error e, [ev1, ev2])
    | Except.ok (_, _, postprocess_target) =>
      let pixel_shader_code := postprocess_shader.getD
        (match viewport.aa with
         | AaMode.Multi 4 => ShaderSrc.POST_PIXEL_SHADER_MSAA_4X
         | _ => ShaderSrc.POST_PIXEL_SHADER)
      match factory.create_pipeline_simple ShaderSrc.POST_VERTEX_SHADER pixel_shader_code with
      | Except.error e => (Except.error e, [ev1, ev2])
      | Except.ok pso =>
        (Except.ok
          { viewport := viewport
            render_target_source := render_target_source
            render_target := render_target
            postprocess_target := postprocess_target
            depth_buffer := depth_buffer
            postprocess_pso := pso },
         [ev1, ev2])

/-- `shared_library::dynamic_library::DynamicLibrary` as consumed by
dl.rs: its `symbol` lookup, returning `Ok(pointer)` or `Err(message)`.
Pointers are modelled as `Nat`, with `0` playing `ptr::null()`. -/
structure DynamicLibrary where
  symbol : String → Except String Nat

/-- `DlProcLoader` (dl.rs): holds `Option<DynamicLibrary>` — `none` when
`DynamicLibrary::open` failed. -/
structure DlProcLoader where
  lib : Option DynamicLibrary

/-- `DlProcLoader::get_proc_addr` (dl.rs): `self.lib.as_ref().and_then(
|l| match l.symbol(s) { Ok(v) => Some(v), Err(_) => None })`. -/
def DlProcLoader.get_proc_addr (p : DlProcLoader) (s : String) : Option Nat :=
  p.lib.bind fun l =>
    match l.symbol s with
    | Except.ok v => some v
    | Except.error _ => none

/-- The loader chain type actually instantiated by `load` (lib.rs):
`DlProcLoader` leaves combined with the binary `Failover` combinator of
dl.rs. -/
inductive ProcLoaderChain where
  | dl : DlProcLoader → ProcLoaderChain
  | failover : ProcLoaderChain → ProcLoaderChain → ProcLoaderChain

/-- `ProcLoader::get_proc_addr` for the chain: a `DlProcLoader` leaf
resolves directly; `Failover::get_proc_addr` (dl.rs) is
`self.0.get_proc_addr(s).or_else(|| self.1.get_proc_addr(s))`. -/
def ProcLoaderChain.get_proc_addr : ProcLoaderChain → String → Option Nat
  | ProcLoaderChain.dl p, s => p.get_proc_addr s
  | ProcLoaderChain.failover a b, s =>
    (a.get_proc_addr s).orElse fun _ => b.get_proc_addr s

/-- The leaf loaders of a chain, left to right. -/
def ProcLoaderChain.leaves : ProcLoaderChain → List DlProcLoader
  | ProcLoaderChain.dl p => [p]
  | ProcLoaderChain.failover a b => a.leaves ++ b.leaves

/-- The leaf loaders a `get_proc_addr` call actually consults, in order.
`Option::or_else` evaluates its closure only when the receiver is
`None`, so the right arm of a `Failover` is consulted exactly when the
left arm resolved nothing. -/
def ProcLoaderChain.consultedLeaves : ProcLoaderChain → String → List DlProcLoader
  | ProcLoaderChain.dl p, _ => [p]
  | ProcLoaderChain.failover a b, s =>
    match a.get_proc_addr s with
    | some _ => a.consultedLeaves s
    | none => a.consultedLeaves s ++ b.consultedLeaves s

/-- First `some` in a list of lookup outcomes, left to right. -/
def firstSome : List (Option Nat) → Option Nat
  | [] => none
  | some v :: _ => some v
  | none :: rest => firstSome rest

/-- `fn_from` (dl.rs): wraps a loader into a total lookup function,
substituting `ptr::null()` (modelled as `0`) when the loader resolves
nothing. -/
def fn_from (p : ProcLoaderChain) : String → Nat :=
  fun s => (p.get_proc_addr s).getD 0

/-- The exact chain built by `load` (lib.rs): the current module first,
then the `libepoxy-0`, `libepoxy0`, `libepoxy` variants, nested with
`Failover` in that order. -/
def load_chain (current_module libepoxy_dash0 libepoxy0 libepoxy : DlProcLoader) :
    ProcLoaderChain :=
  ProcLoaderChain.failover (ProcLoaderChain.dl current_module)
    (ProcLoaderChain.failover (ProcLoaderChain.dl libepoxy_dash0)
      (ProcLoaderChain.failover (ProcLoaderChain.dl libepoxy0)
        (ProcLoaderChain.dl libepoxy)))

/-! Concrete fixtures used by the closed instantiations below. -/

/-- A toolkit GL state: framebuffer 7 bound for drawing, renderbuffer 9
bound, nothing attached. -/
def glStateW : GlState :=
  { draw_framebuffer := 7
    read_framebuffer := 3
    renderbuffer := 9
    color_attachment := fun _ => 0 }

/-- Fixture GL state after a render pass that left framebuffer 42 bound. -/
def glState42W : GlState := { glStateW with draw_framebuffer := 42 }

/-- Fixture viewport for an 800 x 600 widget without antialiasing. -/
def vpW : Viewport := Viewport.with_aa MSAA_NONE 800 600

/-- Fixture callback whose render pass binds framebuffer 42 and yields
`Continue`, and whose postprocess pass binds framebuffer 5. -/
def cbContinueW : RenderCallback :=
  { render := fun s =>
      (Except.ok GlRenderCallbackStatus.Continue, { s with draw_framebuffer := 42 })
    postprocess := fun s =>
      (Except.ok GlRenderCallbackStatus.Continue, { s with draw_framebuffer := 5 }) }

/-- Fixture callback whose render pass binds framebuffer 42 and yields
`Skip`. -/
def cbSkipW : RenderCallback :=
  { render := fun s =>
      (Except.ok GlRenderCallbackStatus.Skip, { s with draw_framebuffer := 42 })
    postprocess := fun s => (Except.ok GlRenderCallbackStatus.Continue, s) }

/-- Fixture callback whose render pass fails. -/
def cbErrW : RenderCallback :=
  { render := fun s => (Except.error (Error.GenericError "boom"), s)
    postprocess := fun s => (Except.ok GlRenderCallbackStatus.Continue, s) }

/-- Fixture factory on which every allocation succeeds. -/
def factoryW : Factory :=
  { create_gtk_compatible_targets := fun _ _ _ => Except.ok (10, 11, 12)
    create_gtk_compatible_render_target := fun _ _ _ => Except.ok (13, 14, 15)
    create_pipeline_simple := fun _ _ => Except.ok 16 }

/-- Fixture factory on which every allocation fails. -/
def factoryFailW : Factory :=
  { create_gtk_compatible_targets := fun _ _ _ => Except.error (Error.GenericError "alloc")
    create_gtk_compatible_render_target := fun _ _ _ => Except.error (Error.GenericError "alloc")
    create_pipeline_simple := fun _ _ => Except.error (Error.GenericError "alloc") }

/-- Fixture factory on which the main targets allocate but the
postprocess target fails. -/
def factoryPostFailW : Factory :=
  { create_gtk_compatible_targets := fun _ _ _ => Except.ok (10, 11, 12)
    create_gtk_compatible_render_target := fun _ _ _ => Except.error (Error.GenericError "post")
    create_pipeline_simple := fun _ _ => Except.ok 16 }

/-- Fixture context holding an 800 x 600 single-sample viewport. -/
def ctxW : RenderContext :=
  { viewport := Viewport.with_aa MSAA_NONE 800 600
    render_target_source := 1
    render_target := 2
    postprocess_target := 3
    depth_buffer := 4
    postprocess_pso := 7 }

/-- Fixture loader that resolves only the symbol `glClear`, to address
100. -/
def libResolvesW : DlProcLoader :=
  { lib := some
      { symbol := fun s =>
          if s = "glClear" then Except.ok 100 else Except.error "not found" } }

/-- Fixture loader whose library failed to open. -/
def libNoneW : DlProcLoader := { lib := none }

/-! ## Claim C4 -/

/-- C4 counterexample: the claim "for every aa_mode the supersampling
factor is 1" fails at `AaMode.Coverage 4 4` with an 800 x 600 widget:
the catch-all arm of `aa_size` yields multiplier 0, so the produced
width is 0, not 800. -/
theorem with_aa_coverage_zero_cex :
    (Viewport.with_aa (AaMode.Coverage 4 4) 800 600).width ≠ 800 := by
  decide

/-- C4 (amended): for `Single` and `Multi(_)` antialiasing modes
`Viewport::with_aa` keeps the widget dimensions (supersampling factor
1); for `Coverage(_, _)` modes the catch-all multiplier is 0, so the
produced width and height are 0.  The widget dimensions themselves are
always stored unchanged in `target_width`/`target_height`. -/
theorem with_aa_dims (aa : AaMode) (tw th : Int) :
    ((aa = AaMode.Single ∨ (∃ n, aa = AaMode.Multi n)) →
      (Viewport.with_aa aa tw th).width = tw ∧ (Viewport.with_aa aa tw th).height = th)
    ∧ (∀ s f, aa = AaMode.Coverage s f →
      (Viewport.with_aa aa tw th).width = 0 ∧ (Viewport.with_aa aa tw th).height = 0)
    ∧ (Viewport.with_aa aa tw th).target_width = tw
    ∧ (Viewport.with_aa aa tw th).target_height = th := by
  cases aa <;>
    simp [Viewport.with_aa, Viewport.aa_size]

/-- Closed instantiation of `with_aa_dims` at `Single`, 800 x 600. -/
theorem with_aa_dims_witness :
    (Viewport.with_aa AaMode.Single 800 600).width = 800 :=
  ((with_aa_dims AaMode.Single 800 600).1 (Or.inl rfl)).1

/-! ## Claims C1, C2, C3 -/

/-- C1: whenever the render callback returns `Ok` (and, on `Continue`,
the postprocess callback also returns `Ok`), `with_gfx` performs the
blit-back handshake: it captures the toolkit's draw framebuffer and
renderbuffer ids before invoking the render callback, then binds the
framebuffer bound after the render/postprocess stage as the read
framebuffer, rebinds the captured toolkit framebuffer as the draw
framebuffer, re-attaches the captured renderbuffer as that
framebuffer's color attachment, blits (0,0,target_width,target_height)
onto the identical rectangle with nearest filtering and the color
buffer bit only, and flushes the GL stream. -/
theorem with_gfx_blit_handshake
    (vp : Viewport) (cb : RenderCallback) (s0 : GlState)
    (st : GlRenderCallbackStatus) (s1 : GlState)
    (hrender : cb.render s0 = (Except.ok st, s1))
    (hpost : st = GlRenderCallbackStatus.Continue →
      result_is_ok (cb.postprocess s1).1 = true) :
    (with_gfx vp cb s0).1 =
      [GlEvent.getIntegerDrawFb s0.draw_framebuffer,
       GlEvent.getIntegerRenderbuffer s0.renderbuffer,
       GlEvent.renderInvoked]
      ++ (postprocess_stage cb (Except.ok st) s1).2.1
      ++ [GlEvent.bindFramebuffer FramebufferSlot.readFb
            (postprocess_stage cb (Except.ok st) s1).2.2.draw_framebuffer,
          GlEvent.bindFramebuffer FramebufferSlot.drawFb s0.draw_framebuffer,
          GlEvent.namedFramebufferRenderbuffer s0.draw_framebuffer GL_COLOR_ATTACHMENT0
            GL_RENDERBUFFER s0.renderbuffer,
          GlEvent.blitFramebuffer 0 0 vp.target_width vp.target_height
            0 0 vp.target_width vp.target_height GL_COLOR_BUFFER_BIT GL_NEAREST,
          GlEvent.glFlush,
          GlEvent.cleanupInvoked] := by
  cases st with
  | Continue =>
      have h := hpost rfl
      simp [with_gfx, hrender, postprocess_stage, blit_back, h]
  | Skip =>
      simp [with_gfx, hrender, postprocess_stage, blit_back, result_is_ok]

/-- Closed instantiation of `with_gfx_blit_handshake` on the fixture
callback and state. -/
theorem with_gfx_blit_handshake_witness :
    (with_gfx vpW cbContinueW glStateW).1 =
      [GlEvent.getIntegerDrawFb 7,
       GlEvent.getIntegerRenderbuffer 9,
       GlEvent.renderInvoked,
       GlEvent.postprocessInvoked,
       GlEvent.bindFramebuffer FramebufferSlot.readFb 5,
       GlEvent.bindFramebuffer FramebufferSlot.drawFb 7,
       GlEvent.namedFramebufferRenderbuffer 7 GL_COLOR_ATTACHMENT0 GL_RENDERBUFFER 9,
       GlEvent.blitFramebuffer 0 0 800 600 0 0 800 600 GL_COLOR_BUFFER_BIT GL_NEAREST,
       GlEvent.glFlush,
       GlEvent.cleanupInvoked] := by
  have h := with_gfx_blit_handshake vpW cbContinueW glStateW
    GlRenderCallbackStatus.Continue glState42W rfl (fun _ => rfl)
  exact h.trans (by decide)

/-- C2: when the render callback returns `Ok(Skip)`, `with_gfx` does not
invoke the postprocess callback, flushes the encoder, and still performs
the blit-back, whose read framebuffer is the one the render pass left
bound for drawing (the primary color target's framebuffer, untouched by
any postprocess pass). -/
theorem with_gfx_skip_path
    (vp : Viewport) (cb : RenderCallback) (s0 : GlState) (s1 : GlState)
    (hrender : cb.render s0 = (Except.ok GlRenderCallbackStatus.Skip, s1)) :
    (with_gfx vp cb s0).1 =
      [GlEvent.getIntegerDrawFb s0.draw_framebuffer,
       GlEvent.getIntegerRenderbuffer s0.renderbuffer,
       GlEvent.renderInvoked,
       GlEvent.encoderFlush,
       GlEvent.bindFramebuffer FramebufferSlot.readFb s1.draw_framebuffer,
       GlEvent.bindFramebuffer FramebufferSlot.drawFb s0.draw_framebuffer,
       GlEvent.namedFramebufferRenderbuffer s0.draw_framebuffer GL_COLOR_ATTACHMENT0
         GL_RENDERBUFFER s0.renderbuffer,
       GlEvent.blitFramebuffer 0 0 vp.target_width vp.target_height
         0 0 vp.target_width vp.target_height GL_COLOR_BUFFER_BIT GL_NEAREST,
       GlEvent.glFlush,
       GlEvent.cleanupInvoked]
    ∧ GlEvent.postprocessInvoked ∉ (with_gfx vp cb s0).1 := by
  have htrace : (with_gfx vp cb s0).1 =
      [GlEvent.getIntegerDrawFb s0.draw_framebuffer,
       GlEvent.getIntegerRenderbuffer s0.renderbuffer,
       GlEvent.renderInvoked,
       GlEvent.encoderFlush,
       GlEvent.bindFramebuffer FramebufferSlot.readFb s1.draw_framebuffer,
       GlEvent.bindFramebuffer FramebufferSlot.drawFb s0.draw_framebuffer,
       GlEvent.namedFramebufferRenderbuffer s0.draw_framebuffer GL_COLOR_ATTACHMENT0
         GL_RENDERBUFFER s0.renderbuffer,
       GlEvent.blitFramebuffer 0 0 vp.target_width vp.target_height
         0 0 vp.target_width vp.target_height GL_COLOR_BUFFER_BIT GL_NEAREST,
       GlEvent.glFlush,
       GlEvent.cleanupInvoked] := by
    simp [with_gfx, hrender, postprocess_stage, blit_back, result_is_ok]
  refine ⟨htrace, ?_⟩
  rw [htrace]
  simp

/-- Closed instantiation of `with_gfx_skip_path` on the skipping fixture
callback. -/
theorem with_gfx_skip_path_witness :
    (with_gfx vpW cbSkipW glStateW).1 =
      [GlEvent.getIntegerDrawFb 7,
       GlEvent.getIntegerRenderbuffer 9,
       GlEvent.renderInvoked,
       GlEvent.encoderFlush,
       GlEvent.bindFramebuffer FramebufferSlot.readFb 42,
       GlEvent.bindFramebuffer FramebufferSlot.drawFb 7,
       GlEvent.namedFramebufferRenderbuffer 7 GL_COLOR_ATTACHMENT0 GL_RENDERBUFFER 9,
       GlEvent.blitFramebuffer 0 0 800 600 0 0 800 600 GL_COLOR_BUFFER_BIT GL_NEAREST,
       GlEvent.glFlush,
       GlEvent.cleanupInvoked] := by
  have h := (with_gfx_skip_path vpW cbSkipW glStateW glState42W rfl).1
  exact h.trans (by decide)

/-- The postprocess stage never emits a cleanup event. -/
theorem count_cleanup_postprocess_stage (cb : RenderCallback)
    (r : Except Error GlRenderCallbackStatus) (s : GlState) :
    (postprocess_stage cb r s).2.1.count GlEvent.cleanupInvoked = 0 := by
  rcases r with e | st
  · simp [postprocess_stage]
  · cases st <;> simp [postprocess_stage]

/-- Each `with_gfx` frame runs device cleanup exactly once, on every
path. -/
theorem count_cleanup_with_gfx (vp : Viewport) (cb : RenderCallback) (s0 : GlState) :
    (with_gfx vp cb s0).1.count GlEvent.cleanupInvoked = 1 := by
  by_cases h : result_is_ok (postprocess_stage cb (cb.render s0).1 (cb.render s0).2).1 = true
  · simp [with_gfx, h, blit_back, List.count_append,
      count_cleanup_postprocess_stage, List.count_cons, beq_iff_eq]
  · simp [with_gfx, h, List.count_append,
      count_cleanup_postprocess_stage, List.count_cons, beq_iff_eq]

/-- C3: when the render callback fails, `with_gfx` performs only the two
binding captures, the render invocation and the cleanup — no postprocess
invocation and no blit-back GL call — and on every path (success, skip
or error) the device cleanup event occurs exactly once. -/
theorem with_gfx_error_path
    (vp : Viewport) (cb : RenderCallback) (s0 : GlState)
    (e : Error) (s1 : GlState)
    (hrender : cb.render s0 = (Except.error e, s1)) :
    (with_gfx vp cb s0).1 =
      [GlEvent.getIntegerDrawFb s0.draw_framebuffer,
       GlEvent.getIntegerRenderbuffer s0.renderbuffer,
       GlEvent.renderInvoked,
       GlEvent.cleanupInvoked]
    ∧ ∀ (cb2 : RenderCallback) (s02 : GlState),
        (with_gfx vp cb2 s02).1.count GlEvent.cleanupInvoked = 1 := by
  constructor
  · simp [with_gfx, hrender, postprocess_stage, result_is_ok]
  · intro cb2 s02
    exact count_cleanup_with_gfx vp cb2 s02

/-- Closed instantiation of `with_gfx_error_path` on the failing fixture
callback. -/
theorem with_gfx_error_path_witness :
    (with_gfx vpW cbErrW glStateW).1 =
      [GlEvent.getIntegerDrawFb 7,
       GlEvent.getIntegerRenderbuffer 9,
       GlEvent.renderInvoked,
       GlEvent.cleanupInvoked] := by
  have h := (with_gfx_error_path vpW cbErrW glStateW
    (Error.GenericError "boom") glStateW rfl).1
  exact h.trans (by decide)

/-! ## Claims C5, C6, C7 -/

/-- C5: when the viewport computed from the widget dimensions has the
same width and height as the stored viewport, `resize` performs no
allocation and no callback notification, leaves the context (viewport,
render target views, postprocess target, depth buffer) exactly as it
was, and returns `Ok(())`. -/
theorem resize_noop
    (ctx : RenderContext) (factory : Factory) (w h : Int)
    (cb : Option (Viewport → Except Error GlRenderCallbackStatus))
    (hw : (Viewport.with_aa ctx.viewport.aa w h).width = ctx.viewport.width)
    (hh : (Viewport.with_aa ctx.viewport.aa w h).height = ctx.viewport.height) :
    ctx.resize factory w h cb = (Except.ok (), ctx, []) := by
  simp [RenderContext.resize, hw, hh]

/-- Closed instantiation of `resize_noop`: resizing the 800 x 600
fixture context to 800 x 600 changes nothing. -/
theorem resize_noop_witness :
    ctxW.resize factoryW 800 600 none = (Except.ok (), ctxW, []) :=
  resize_noop ctxW factoryW 800 600 none (by decide) (by decide)

/-- C6: when the computed viewport's width or height differs from the
stored one and both allocations succeed, `resize` allocates the main
target set and the postprocess target exactly once each, replaces the
stored viewport and all four resource fields, forwards exactly one
resize notification carrying the new viewport when a callback is
attached, and forwards none when no callback is attached. -/
theorem resize_realloc_notifies
    (ctx : RenderContext) (factory : Factory) (w h : Int)
    (f : Viewport → Except Error GlRenderCallbackStatus)
    (nvp : Viewport) (hnvp : Viewport.with_aa ctx.viewport.aa w h = nvp)
    (hdiff : nvp.width ≠ ctx.viewport.width ∨ nvp.height ≠ ctx.viewport.height)
    (src tgt dep : Nat)
    (halloc : factory.create_gtk_compatible_targets ctx.viewport.aa
      (i32_as_u16 nvp.width) (i32_as_u16 nvp.height) = Except.ok (src, tgt, dep))
    (t1 t2 post : Nat)
    (hpost : factory.create_gtk_compatible_render_target MSAA_NONE
      (i32_as_u16 nvp.target_width) (i32_as_u16 nvp.target_height) =
      Except.ok (t1, t2, post)) :
    ctx.resize factory w h (some f) =
      ((match f nvp with
        | Except.ok _ => Except.ok ()
        | Except.error e => Except.error e),
       { ctx with
          viewport := nvp
          render_target_source := src
          render_target := tgt
          postprocess_target := post
          depth_buffer := dep },
       [ResizeEvent.allocTargets ctx.viewport.aa
          (i32_as_u16 nvp.width) (i32_as_u16 nvp.height),
        ResizeEvent.allocPostTarget MSAA_NONE
          (i32_as_u16 nvp.target_width) (i32_as_u16 nvp.target_height),
        ResizeEvent.notifyResize nvp])
    ∧ ctx.resize factory w h none =
      (Except.ok (),
       { ctx with
          viewport := nvp
          render_target_source := src
          render_target := tgt
          postprocess_target := post
          depth_buffer := dep },
       [ResizeEvent.allocTargets ctx.viewport.aa
          (i32_as_u16 nvp.width) (i32_as_u16 nvp.height),
        ResizeEvent.allocPostTarget MSAA_NONE
          (i32_as_u16 nvp.target_width) (i32_as_u16 nvp.target_height)]) := by
  subst hnvp
  constructor
  · simp only [RenderContext.resize, if_pos hdiff, halloc, hpost]
    cases f (Viewport.with_aa ctx.viewport.aa w h) <;> rfl
  · simp only [RenderContext.resize, if_pos hdiff, halloc, hpost]

/-- Closed instantiation of `resize_realloc_notifies`: growing the
800 x 600 fixture context to 1024 x 768. -/
theorem resize_realloc_notifies_witness :
    ctxW.resize factoryW 1024 768 (some fun _ => Except.ok GlRenderCallbackStatus.Continue) =
      (Except.ok (),
       { ctxW with
          viewport := Viewport.with_aa MSAA_NONE 1024 768
          render_target_source := 10
          render_target := 11
          postprocess_target := 15
          depth_buffer := 12 },
       [ResizeEvent.allocTargets MSAA_NONE 1024 768,
        ResizeEvent.allocPostTarget MSAA_NONE 1024 768,
        ResizeEvent.notifyResize (Viewport.with_aa MSAA_NONE 1024 768)]) := by
  have hmain := (resize_realloc_notifies ctxW factoryW 1024 768
    (fun _ => Except.ok GlRenderCallbackStatus.Continue)
    (Viewport.with_aa ctxW.viewport.aa 1024 768) rfl
    (by decide) 10 11 12 rfl 13 14 15 rfl).1
  exact hmain.trans (by rfl)

/-- C7: if either target allocation fails during a reallocating resize,
`resize` returns that error with the context unchanged — viewport,
render target source and view, postprocess target and depth buffer all
keep their previous values — and the event trace holds only the
allocation attempts, never a resize notification. -/
theorem resize_alloc_failure_atomic
    (ctx : RenderContext) (factory : Factory) (w h : Int)
    (cb : Option (Viewport → Except Error GlRenderCallbackStatus))
    (nvp : Viewport) (hnvp : Viewport.with_aa ctx.viewport.aa w h = nvp)
    (hdiff : nvp.width ≠ ctx.viewport.width ∨ nvp.height ≠ ctx.viewport.height)
    (e : Error) :
    (factory.create_gtk_compatible_targets ctx.viewport.aa
        (i32_as_u16 nvp.width) (i32_as_u16 nvp.height) = Except.error e →
      ctx.resize factory w h cb =
        (Except.error e, ctx,
         [ResizeEvent.allocTargets ctx.viewport.aa
            (i32_as_u16 nvp.width) (i32_as_u16 nvp.height)]))
    ∧ (∀ src tgt dep,
        factory.create_gtk_compatible_targets ctx.viewport.aa
          (i32_as_u16 nvp.width) (i32_as_u16 nvp.height) = Except.ok (src, tgt, dep) →
        factory.create_gtk_compatible_render_target MSAA_NONE
          (i32_as_u16 nvp.target_width) (i32_as_u16 nvp.target_height) = Except.error e →
        ctx.resize factory w h cb =
          (Except.error e, ctx,
           [ResizeEvent.allocTargets ctx.viewport.aa
              (i32_as_u16 nvp.width) (i32_as_u16 nvp.height),
            ResizeEvent.allocPostTarget MSAA_NONE
              (i32_as_u16 nvp.target_width) (i32_as_u16 nvp.target_height)])) := by
  subst hnvp
  constructor
  · intro hfail
    simp only [RenderContext.resize, if_pos hdiff, hfail]
  · intro src tgt dep hok hfail
    simp only [RenderContext.resize, if_pos hdiff, hok, hfail]

/-- Closed instantiation of `resize_alloc_failure_atomic`: the failing
fixture factory leaves the 800 x 600 fixture context untouched. -/
theorem resize_alloc_failure_atomic_witness :
    ctxW.resize factoryFailW 1024 768 none =
      (Except.error (Error.GenericError "alloc"), ctxW,
       [ResizeEvent.allocTargets MSAA_NONE 1024 768]) := by
  have hmain := (resize_alloc_failure_atomic ctxW factoryFailW 1024 768 none
    (Viewport.with_aa ctxW.viewport.aa 1024 768) rfl (by decide)
    (Error.GenericError "alloc")).1 rfl
  exact hmain.trans (by rfl)

/-! ## Claims C8, C9 -/

/-- Scanning an appended outcome list finds the left part's first hit
first. -/
theorem firstSome_append (xs ys : List (Option Nat)) :
    firstSome (xs ++ ys) =
      ((firstSome xs).orElse fun _ => firstSome ys) := by
  induction xs with
  | nil => simp [firstSome, Option.orElse]
  | cons x rest ih =>
    cases x with
    | some v => simp [firstSome, Option.orElse]
    | none => simp [firstSome, Option.orElse, ih]

/-- A chain resolves a symbol to the first hit among its leaves, taken
left to right. -/
theorem chain_get_eq_firstSome (p : ProcLoaderChain) (s : String) :
    p.get_proc_addr s = firstSome (p.leaves.map fun l => l.get_proc_addr s) := by
  induction p with
  | dl l =>
    cases hl : l.get_proc_addr s <;>
      simp [ProcLoaderChain.get_proc_addr, ProcLoaderChain.leaves, firstSome, hl]
  | failover a b iha ihb =>
    simp [ProcLoaderChain.get_proc_addr, ProcLoaderChain.leaves,
      firstSome_append, iha, ihb]

/-- C8: the `load` chain (current module, then the three libepoxy
variants, combined with `Failover`) resolves every symbol to the first
hit among its loaders in left-to-right order, and when the
current-module loader resolves the symbol, the chain returns exactly
that result having consulted no other loader — the libepoxy variants
are never probed. -/
theorem load_chain_short_circuit
    (current_module libepoxy_dash0 libepoxy0 libepoxy : DlProcLoader) (s : String) :
    ((load_chain current_module libepoxy_dash0 libepoxy0 libepoxy).get_proc_addr s =
      firstSome
        [current_module.get_proc_addr s, libepoxy_dash0.get_proc_addr s,
         libepoxy0.get_proc_addr s, libepoxy.get_proc_addr s])
    ∧ (∀ v, current_module.get_proc_addr s = some v →
        (load_chain current_module libepoxy_dash0 libepoxy0 libepoxy).get_proc_addr s =
          some v
        ∧ (load_chain current_module libepoxy_dash0 libepoxy0
            libepoxy).consultedLeaves s = [current_module]) := by
  constructor
  · have h := chain_get_eq_firstSome
      (load_chain current_module libepoxy_dash0 libepoxy0 libepoxy) s
    simpa [load_chain, ProcLoaderChain.leaves] using h
  · intro v hv
    constructor
    · simp [load_chain, ProcLoaderChain.get_proc_addr, hv, Option.orElse]
    · simp [load_chain, ProcLoaderChain.consultedLeaves,
        ProcLoaderChain.get_proc_addr, hv]

/-- Closed instantiation of `load_chain_short_circuit`: a symbol present
in the current module resolves there and only the current-module loader
is consulted. -/
theorem load_chain_short_circuit_witness :
    (load_chain libResolvesW libNoneW libNoneW libNoneW).get_proc_addr "glClear" =
      some 100
    ∧ (load_chain libResolvesW libNoneW libNoneW
        libNoneW).consultedLeaves "glClear" = [libResolvesW] :=
  (load_chain_short_circuit libResolvesW libNoneW libNoneW libNoneW "glClear").2
    100 (by rfl)

/-- C9: a symbol no loader of a chain resolves — in particular when
every dynamic library failed to open, leaving each leaf with `lib =
None` — makes the total lookup function built by `fn_from` return the
null pointer (0); `fn_from` is a total function, so the lookup cannot
panic. -/
theorem fn_from_null_when_unresolved (p : ProcLoaderChain) (s : String) :
    ((∀ l ∈ p.leaves, l.get_proc_addr s = none) → fn_from p s = 0)
    ∧ ((∀ l ∈ p.leaves, l.lib = none) → fn_from p s = 0) := by
  have hnone : (∀ l ∈ p.leaves, l.get_proc_addr s = none) → fn_from p s = 0 := by
    intro hall
    have hfs : ∀ xs : List DlProcLoader, (∀ l ∈ xs, l.get_proc_addr s = none) →
        firstSome (xs.map fun l => l.get_proc_addr s) = none := by
      intro xs
      induction xs with
      | nil => intro _; simp [firstSome]
      | cons x rest ih =>
        intro hx
        have hxnone := hx x (List.mem_cons_self x rest)
        simp [firstSome, hxnone]
        exact ih fun l hl => hx l (List.mem_cons_of_mem x hl)
    have hget := chain_get_eq_firstSome p s
    simp [fn_from, hget, hfs p.leaves hall]
  refine ⟨hnone, fun hlib => hnone fun l hl => ?_⟩
  simp [DlProcLoader.get_proc_addr, hlib l hl]

/-- Closed instantiation of `fn_from_null_when_unresolved`: with every
library failed to open, the produced lookup function returns the null
pointer. -/
theorem fn_from_null_when_unresolved_witness :
    fn_from (load_chain libNoneW libNoneW libNoneW libNoneW) "glClear" = 0 := by
  apply (fn_from_null_when_unresolved
    (load_chain libNoneW libNoneW libNoneW libNoneW) "glClear").2
  intro l hl
  simp [load_chain, ProcLoaderChain.leaves] at hl
  rw [hl]
  rfl

/-! ## Claim C10 -/

/-- C10: both `new_with_loader` and every reallocating `resize` pass the
`i32` viewport dimensions to the target allocator through the `as u16`
cast, so the allocator always receives the dimension reduced modulo
65536; a width or height outside `0..=65535` is silently truncated, and
with a factory that accepts the truncated sizes the construction
succeeds rather than rejecting the out-of-range dimension. -/
theorem dims_cast_u16_mod
    (factory : Factory) (aa : AaMode) (w h : Int) (ps : Option ShaderSrc) :
    ((new_with_loader factory aa w h ps).2.head? =
      some (ResizeEvent.allocTargets aa
        (i32_as_u16 (Viewport.with_aa aa w h).width)
        (i32_as_u16 (Viewport.with_aa aa w h).height)))
    ∧ (∀ (ctx : RenderContext)
        (cb : Option (Viewport → Except Error GlRenderCallbackStatus)),
        (Viewport.with_aa ctx.viewport.aa w h).width ≠ ctx.viewport.width ∨
          (Viewport.with_aa ctx.viewport.aa w h).height ≠ ctx.viewport.height →
        (ctx.resize factory w h cb).2.2.head? =
          some (ResizeEvent.allocTargets ctx.viewport.aa
            (i32_as_u16 (Viewport.with_aa ctx.viewport.aa w h).width)
            (i32_as_u16 (Viewport.with_aa ctx.viewport.aa w h).height)))
    ∧ (∀ v : Int, (i32_as_u16 v : Int) = v % 65536)
    ∧ (∀ tr pr pso,
        factory.create_gtk_compatible_targets aa
          (i32_as_u16 (Viewport.with_aa aa w h).width)
          (i32_as_u16 (Viewport.with_aa aa w h).height) = Except.ok tr →
        factory.create_gtk_compatible_render_target MSAA_NONE
          (i32_as_u16 (Viewport.with_aa aa w h).target_width)
          (i32_as_u16 (Viewport.with_aa aa w h).target_height) = Except.ok pr →
        (∀ vs fs, factory.create_pipeline_simple vs fs = Except.ok pso) →
        result_is_ok (new_with_loader factory aa w h ps).1 = true) := by
  refine ⟨?_, ?_, ?_, ?_⟩
  · rcases hf : factory.create_gtk_compatible_targets aa
        (i32_as_u16 (Viewport.with_aa aa w h).width)
        (i32_as_u16 (Viewport.with_aa aa w h).height) with e | ⟨x, y, z⟩
    · simp [new_with_loader, hf]
    · rcases hg : factory.create_gtk_compatible_render_target MSAA_NONE
          (i32_as_u16 (Viewport.with_aa aa w h).target_width)
          (i32_as_u16 (Viewport.with_aa aa w h).target_height) with e | ⟨u1, u2, u3⟩
      · simp [new_with_loader, hf, hg]
      · rcases hp : factory.create_pipeline_simple ShaderSrc.POST_VERTEX_SHADER
            (ps.getD (match (Viewport.with_aa aa w h).aa with
              | AaMode.Multi 4 => ShaderSrc.POST_PIXEL_SHADER_MSAA_4X
              | _ => ShaderSrc.POST_PIXEL_SHADER)) with e | pso
        · simp [new_with_loader, hf, hg, hp]
        · simp [new_with_loader, hf, hg, hp]
  · intro ctx cb hdiff
    rcases hf : factory.create_gtk_compatible_targets ctx.viewport.aa
        (i32_as_u16 (Viewport.with_aa ctx.viewport.aa w h).width)
        (i32_as_u16 (Viewport.with_aa ctx.viewport.aa w h).height) with e | ⟨x, y, z⟩
    · simp [RenderContext.resize, if_pos hdiff, hf]
    · rcases hg : factory.create_gtk_compatible_render_target MSAA_NONE
          (i32_as_u16 (Viewport.with_aa ctx.viewport.aa w h).target_width)
          (i32_as_u16 (Viewport.with_aa ctx.viewport.aa w h).target_height)
          with e | ⟨u1, u2, u3⟩
      · simp [RenderContext.resize, if_pos hdiff, hf, hg]
      · cases cb with
        | none => simp [RenderContext.resize, if_pos hdiff, hf, hg]
        | some f =>
          cases hcb : f (Viewport.with_aa ctx.viewport.aa w h) <;>
            simp [RenderContext.resize, if_pos hdiff, hf, hg, hcb]
  · intro v
    exact Int.toNat_of_nonneg (Int.emod_nonneg v (by norm_num))
  · rintro ⟨a1, a2, a3⟩ ⟨b1, b2, b3⟩ pso hf hg hp
    simp [new_with_loader, hf, hg, hp, result_is_ok]

/-- Closed instantiation of `dims_cast_u16_mod`: resizing the fixture
context to 70000 x -1 asks the allocator for 4464 x 65535 instead of
rejecting the out-of-range dimensions. -/
theorem dims_cast_u16_mod_witness :
    (ctxW.resize factoryW 70000 (-1) none).2.2.head? =
      some (ResizeEvent.allocTargets MSAA_NONE 4464 65535) := by
  have h := (dims_cast_u16_mod factoryW MSAA_NONE 70000 (-1) none).2.1 ctxW none
    (by decide)
  exact h.trans (by decide)
